import Mathlib

/-!
Shallow embedding of the Certis Security+ ROI companion (src/app.py).

Machine floats are modelled as exact rationals (ℚ). The embedded pieces are:
* `compute_roi` (app.py lines 17-57): the pure ROI model;
* the intermediate quantities `labor_cost`, `non_labor`, `labor_savings`
  (app.py lines 31, 32, 34) exposed as standalone definitions;
* `sweep` (app.py lines 192-215): the sensitivity sweep over a lever,
  built on a model `pyRange` of Python's `range(0, stop, step)`;
* `load_markdown` (app.py lines 60-65), with the file system abstracted as a
  partial map from paths to file contents.
-/

namespace CertisROI

/-- The result dictionary returned by `compute_roi` (app.py lines 45-56). -/
structure Result where
  baseline_cost : ℚ
  new_cost : ℚ
  savings : ℚ
  platform_cost : ℚ
  roi : ℚ
  payback_months : ℚ
  labor_share : ℚ
  manpower_reduction : ℚ
  productivity_gain : ℚ
  throughput_multiplier : ℚ
deriving DecidableEq

/-- app.py line 31: `labor_cost = annual_ops_cost * labor_share`. -/
def labor_cost (annual_ops_cost labor_share : ℚ) : ℚ :=
  annual_ops_cost * labor_share

/-- app.py line 32: `non_labor = annual_ops_cost * (1 - labor_share)`. -/
def non_labor (annual_ops_cost labor_share : ℚ) : ℚ :=
  annual_ops_cost * (1 - labor_share)

/-- app.py line 34: `labor_savings = labor_cost * manpower_reduction`. -/
def labor_savings (annual_ops_cost labor_share manpower_reduction : ℚ) : ℚ :=
  labor_cost annual_ops_cost labor_share * manpower_reduction

/-- app.py lines 17-57: the ROI model.  Python's `if platform_cost` tests
truthiness, i.e. `platform_cost ≠ 0`; the payback guard is `platform_cost > 0`. -/
def compute_roi (annual_ops_cost labor_share manpower_reduction
    productivity_gain platform_cost : ℚ) : Result :=
  let lc := labor_cost annual_ops_cost labor_share
  let nl := non_labor annual_ops_cost labor_share
  let lsav := labor_savings annual_ops_cost labor_share manpower_reduction
  let new_ops_cost := (lc - lsav) + nl + platform_cost
  let savings := annual_ops_cost - new_ops_cost
  let roi := if platform_cost ≠ 0 then savings / platform_cost else 0
  let payback_months :=
    if platform_cost > 0 then 12 * (platform_cost / max savings 1) else 0
  let throughput_effect := 1 + productivity_gain
  { baseline_cost := annual_ops_cost
    new_cost := new_ops_cost
    savings := savings
    platform_cost := platform_cost
    roi := roi
    payback_months := payback_months
    labor_share := labor_share
    manpower_reduction := manpower_reduction
    productivity_gain := productivity_gain
    throughput_multiplier := throughput_effect }

/-- Guarded division: `none` exactly when the Python expression `a / b`
would raise `ZeroDivisionError`. -/
def div? (a b : ℚ) : Option ℚ :=
  if b = 0 then none else some (a / b)

/-- `compute_roi` with every division routed through `div?`, so that the
result is `none` exactly when the Python code would raise on a division. -/
def compute_roi? (annual_ops_cost labor_share manpower_reduction
    productivity_gain platform_cost : ℚ) : Option Result :=
  let lc := labor_cost annual_ops_cost labor_share
  let nl := non_labor annual_ops_cost labor_share
  let lsav := labor_savings annual_ops_cost labor_share manpower_reduction
  let new_ops_cost := (lc - lsav) + nl + platform_cost
  let savings := annual_ops_cost - new_ops_cost
  do
    let roi ← if platform_cost ≠ 0 then div? savings platform_cost else some 0
    let payback_months ←
      if platform_cost > 0 then do
        let q ← div? platform_cost (max savings 1)
        some (12 * q)
      else some 0
    some { baseline_cost := annual_ops_cost
           new_cost := new_ops_cost
           savings := savings
           platform_cost := platform_cost
           roi := roi
           payback_months := payback_months
           labor_share := labor_share
           manpower_reduction := manpower_reduction
           productivity_gain := productivity_gain
           throughput_multiplier := 1 + productivity_gain }

/-- Python's `range(0, stop, step)` for `step > 0`: the multiples of `step`
below `stop`, in ascending order. -/
def pyRange (stop step : ℕ) : List ℕ :=
  (List.range ((stop + step - 1) / step)).map (fun i => i * step)

/-- app.py lines 193/205: the stride `max(1, int(40 / (steps - 1)))` used by
the sensitivity sweep (for `steps ≥ 2` the float division truncates to the
integer quotient). -/
def stride (steps : ℕ) : ℕ :=
  max 1 (40 / (steps - 1))

/-- app.py lines 193/205: the lever values
`[i / 100 for i in range(0, 41, stride)]`. -/
def sweepXs (steps : ℕ) : List ℚ :=
  (pyRange 41 (stride steps)).map (fun (i : ℕ) => (i : ℚ) / 100)

/-- The lever chosen in the sensitivity tab (app.py lines 185-192). -/
inductive Lever where
  | manpower_reduction
  | productivity_gain
deriving DecidableEq

/-- app.py lines 192-215: the sensitivity sweep.  One branch varies
`manpower_reduction` (lines 192-199), the other `productivity_gain`
(lines 204-210); each pairs the lever value with the recomputed result. -/
def sweep (lever : Lever) (annual_ops_cost labor_share manpower_reduction
    productivity_gain platform_cost : ℚ) (steps : ℕ) : List (ℚ × Result) :=
  match lever with
  | .manpower_reduction =>
      (sweepXs steps).map (fun mcut =>
        (mcut, compute_roi annual_ops_cost labor_share mcut
          productivity_gain platform_cost))
  | .productivity_gain =>
      (sweepXs steps).map (fun pg =>
        (pg, compute_roi annual_ops_cost labor_share manpower_reduction
          pg platform_cost))

/-- Modelled from the spec: the "distinct stride-sampled integer points in
[0, 40]" for a given `steps`, "then divided by 100" — the integer percentage
points of [0, 40] that are multiples of the stride, each divided by 100. -/
def specLeverPoints (steps : ℕ) : List ℚ :=
  ((List.range 41).filter (fun i => i % stride steps == 0)).map
    (fun (i : ℕ) => (i : ℚ) / 100)

/-- app.py lines 60-65: the markdown loader, with the file system abstracted
as a map from relative paths to the contents of existing files. -/
def load_markdown (fs : String → Option String) (relative_path : String) :
    String :=
  match fs relative_path with
  | some text => text
  | none =>
      "> ⚠️ Could not find `" ++ relative_path ++
        "`. Make sure your repo contains this file."

/-! ### Theorems -/

/-- C1, counterexample: at the spec's concrete scenario
(`annual_ops_cost = 5000000`, `labor_share = 0.80`,
`manpower_reduction = 0.20`, `productivity_gain = 0.25`,
`platform_cost = 600000`) the claimed output values do not all hold:
the code yields `new_ops_cost = 4800000`, not `3800000`. -/
theorem c1_scenario_claim_false :
    ¬ (labor_cost 5000000 (4/5) = 4000000 ∧
       non_labor 5000000 (4/5) = 1000000 ∧
       labor_savings 5000000 (4/5) (1/5) = 800000 ∧
       (compute_roi 5000000 (4/5) (1/5) (1/4) 600000).new_cost = 3800000 ∧
       (compute_roi 5000000 (4/5) (1/5) (1/4) 600000).savings = 1200000 ∧
       (compute_roi 5000000 (4/5) (1/5) (1/4) 600000).roi = 2 ∧
       (compute_roi 5000000 (4/5) (1/5) (1/4) 600000).payback_months = 6 ∧
       (compute_roi 5000000 (4/5) (1/5) (1/4) 600000).throughput_multiplier
         = 5/4) := by
  intro h
  have h4 := h.2.2.2.1
  rw [show (compute_roi 5000000 (4/5) (1/5) (1/4) 600000).new_cost
      = 4800000 from by
    norm_num [compute_roi, labor_cost, non_labor, labor_savings]] at h4
  norm_num at h4

/-- C1, amended: at that same scenario the code returns
`labor_cost = 4000000`, `non_labor_cost = 1000000`, `labor_savings = 800000`,
`new_ops_cost = 4800000`, `savings = 200000`, `roi = 1/3`,
`payback_months = 36`, and `throughput_multiplier = 1.25`. -/
theorem c1_scenario_actual :
    labor_cost 5000000 (4/5) = 4000000 ∧
    non_labor 5000000 (4/5) = 1000000 ∧
    labor_savings 5000000 (4/5) (1/5) = 800000 ∧
    (compute_roi 5000000 (4/5) (1/5) (1/4) 600000).new_cost = 4800000 ∧
    (compute_roi 5000000 (4/5) (1/5) (1/4) 600000).savings = 200000 ∧
    (compute_roi 5000000 (4/5) (1/5) (1/4) 600000).roi = 1/3 ∧
    (compute_roi 5000000 (4/5) (1/5) (1/4) 600000).payback_months = 36 ∧
    (compute_roi 5000000 (4/5) (1/5) (1/4) 600000).throughput_multiplier
      = 5/4 := by
  norm_num [compute_roi, labor_cost, non_labor, labor_savings, max_def]

/-- C3: for every scenario, `new_ops_cost + savings = annual_ops_cost`. -/
theorem c3_savings_complement (a ls mr pg pc : ℚ) :
    (compute_roi a ls mr pg pc).new_cost + (compute_roi a ls mr pg pc).savings
      = a := by
  simp [compute_roi]

/-- C4: whenever `savings ≤ 1` and `platform_cost > 0` the payback divisor is
floored at 1, so `payback_months = 12 * platform_cost`; and whenever
`platform_cost ≤ 0` the payback is 0. -/
theorem c4_payback_clamp (a ls mr pg pc : ℚ) :
    ((compute_roi a ls mr pg pc).savings ≤ 1 → 0 < pc →
      (compute_roi a ls mr pg pc).payback_months = 12 * pc) ∧
    (pc ≤ 0 → (compute_roi a ls mr pg pc).payback_months = 0) := by
  constructor
  · intro hs hpc
    simp only [compute_roi] at hs ⊢
    rw [if_pos hpc, max_eq_right hs]
    ring
  · intro hpc
    simp only [compute_roi]
    rw [if_neg (not_lt.mpr hpc)]

/-- C4 witness: at `annual_ops_cost = 0`, `platform_cost = 5` the savings are
`-5 ≤ 1` and the payback is `60 = 12 * 5`; at `platform_cost = 0` (second
scenario) the payback is 0. -/
theorem c4_payback_clamp_witness :
    (compute_roi 0 0 0 0 5).payback_months = 12 * 5 ∧
    (compute_roi 1 1 0 0 0).payback_months = 0 :=
  ⟨(c4_payback_clamp 0 0 0 0 5).1
      (by norm_num [compute_roi, labor_cost, non_labor, labor_savings])
      (by norm_num),
   (c4_payback_clamp 1 1 0 0 0).2 le_rfl⟩

/-- C5: `roi = 0` when `platform_cost = 0`, and `roi = savings / platform_cost`
when `platform_cost ≠ 0`. -/
theorem c5_roi_guard (a ls mr pg pc : ℚ) :
    (pc = 0 → (compute_roi a ls mr pg pc).roi = 0) ∧
    (pc ≠ 0 → (compute_roi a ls mr pg pc).roi
      = (compute_roi a ls mr pg pc).savings / pc) := by
  constructor
  · intro h
    simp [compute_roi, h]
  · intro h
    simp [compute_roi, h]

/-- C5 witness: at `platform_cost = 0` the roi is 0; at the default scenario
(`platform_cost = 600000`) the roi equals savings divided by platform cost. -/
theorem c5_roi_guard_witness :
    (compute_roi 5000000 (4/5) (1/5) (1/4) 0).roi = 0 ∧
    (compute_roi 5000000 (4/5) (1/5) (1/4) 600000).roi
      = (compute_roi 5000000 (4/5) (1/5) (1/4) 600000).savings / 600000 :=
  ⟨(c5_roi_guard 5000000 (4/5) (1/5) (1/4) 0).1 rfl,
   (c5_roi_guard 5000000 (4/5) (1/5) (1/4) 600000).2 (by norm_num)⟩

/-- C8: two scenarios differing only in `productivity_gain` yield identical
`new_ops_cost`, `savings`, `roi` and `payback_months`; the gain feeds only
`throughput_multiplier`, which equals `1 + productivity_gain`. -/
theorem c8_gain_noninterference (a ls mr pg pg' pc : ℚ) :
    (compute_roi a ls mr pg pc).new_cost
      = (compute_roi a ls mr pg' pc).new_cost ∧
    (compute_roi a ls mr pg pc).savings
      = (compute_roi a ls mr pg' pc).savings ∧
    (compute_roi a ls mr pg pc).roi = (compute_roi a ls mr pg' pc).roi ∧
    (compute_roi a ls mr pg pc).payback_months
      = (compute_roi a ls mr pg' pc).payback_months ∧
    (compute_roi a ls mr pg pc).throughput_multiplier = 1 + pg :=
  ⟨rfl, rfl, rfl, rfl, rfl⟩

/-- C6: no division in `compute_roi` ever has a zero divisor: the guarded
variant `compute_roi?` succeeds on every input and agrees with
`compute_roi`, so the function is total and never raises. -/
theorem c6_total_no_failure (a ls mr pg pc : ℚ) :
    compute_roi? a ls mr pg pc = some (compute_roi a ls mr pg pc) := by
  have hmax : max (a - ((labor_cost a ls - labor_savings a ls mr)
      + non_labor a ls + pc)) 1 ≠ 0 := by
    intro h
    have h1 := le_max_right (a - ((labor_cost a ls - labor_savings a ls mr)
      + non_labor a ls + pc)) (1 : ℚ)
    rw [h] at h1
    norm_num at h1
  by_cases hne : pc = 0
  · simp [compute_roi?, compute_roi, div?, hne]
  · by_cases hpos : 0 < pc
    · simp [compute_roi?, compute_roi, div?, hne, hpos, hmax]
    · simp [compute_roi?, compute_roi, div?, hne, hpos, hmax]

/-- The stride is at least 1. -/
lemma one_le_stride (steps : ℕ) : 1 ≤ stride steps :=
  le_max_left 1 _

/-- The stride is at most 40. -/
lemma stride_le_forty (steps : ℕ) : stride steps ≤ 40 :=
  max_le (by norm_num) (le_trans (Nat.div_le_self 40 (steps - 1))
    (by norm_num))

/-- For every stride in 1..40, the multiples of the stride among the integer
points of [0, 40] are exactly `0, st, 2*st, ..., (40/st)*st`. -/
lemma range_filter_mod (st : ℕ) (h1 : 1 ≤ st) (h2 : st ≤ 40) :
    (List.range 41).filter (fun i => i % st == 0)
      = (List.range (40 / st + 1)).map (fun i => i * st) := by
  have key : ∀ s ∈ Finset.Icc 1 40,
      (List.range 41).filter (fun i => i % s == 0)
        = (List.range (40 / s + 1)).map (fun i => i * s) := by decide
  exact key st (Finset.mem_Icc.mpr ⟨h1, h2⟩)

/-- `range(0, 41, st)` enumerates `0, st, ..., (40/st)*st`. -/
lemma pyRange_41 (st : ℕ) (h : 1 ≤ st) :
    pyRange 41 st = (List.range (40 / st + 1)).map (fun i => i * st) := by
  unfold pyRange
  have h41 : 41 + st - 1 = 40 + st := by omega
  rw [h41, Nat.add_div_right _ (by omega)]

/-- Explicit form of the sweep's lever values. -/
lemma sweepXs_eq (steps : ℕ) :
    sweepXs steps = (List.range (40 / stride steps + 1)).map
      (fun i => ((i * stride steps : ℕ) : ℚ) / 100) := by
  unfold sweepXs
  rw [pyRange_41 _ (one_le_stride steps), List.map_map]
  rfl

/-- The spec's stride-sampled points coincide with the same explicit form. -/
lemma specLeverPoints_eq (steps : ℕ) :
    specLeverPoints steps = (List.range (40 / stride steps + 1)).map
      (fun i => ((i * stride steps : ℕ) : ℚ) / 100) := by
  unfold specLeverPoints
  rw [range_filter_mod _ (one_le_stride steps) (stride_le_forty steps),
    List.map_map]
  rfl

/-- The lever values of a sweep, in order. -/
lemma sweep_map_fst (lever : Lever) (a ls mr pg pc : ℚ) (steps : ℕ) :
    (sweep lever a ls mr pg pc steps).map Prod.fst = sweepXs steps := by
  cases lever <;>
    · rw [sweep, List.map_map]
      exact List.map_id _

/-- The explicit lever-value list is strictly ascending. -/
lemma lever_values_pairwise (steps : ℕ) :
    ((List.range (40 / stride steps + 1)).map
      (fun i => ((i * stride steps : ℕ) : ℚ) / 100)).Pairwise (· < ·) := by
  rw [List.pairwise_map]
  refine (List.pairwise_lt_range _).imp ?_
  intro i j hij
  have hst : 0 < stride steps := one_le_stride steps
  have hm : i * stride steps < j * stride steps :=
    Nat.mul_lt_mul_of_lt_of_le hij le_rfl hst
  have hq : ((i * stride steps : ℕ) : ℚ) < ((j * stride steps : ℕ) : ℚ) := by
    exact_mod_cast hm
  gcongr

/-- C2, counterexample: with the default base scenario and the default
`steps = 15`, the sweep has 21 pairs, not 15 — the sequence length is not
the requested step count. -/
theorem c2_steps_count_false :
    ¬ ((sweep .manpower_reduction 5000000 (4/5) (1/5) (1/4) 600000 15).length
      = 15) := by
  have h : (sweep .manpower_reduction 5000000 (4/5) (1/5) (1/4) 600000
      15).length = 21 := by
    simp only [sweep, sweepXs, pyRange, stride, List.length_map,
      List.length_range]
    decide
  rw [h]
  norm_num

/-- C2, amended: for every lever, base scenario and `steps ≥ 2`, the sweep's
pairs carry exactly the distinct stride-sampled integer percentage points of
[0, 40] (stride `max(1, floor(40 / (steps − 1)))`) divided by 100, in order —
one pair per sampled point rather than `steps` pairs. -/
theorem c2_sweep_sampling (lever : Lever) (a ls mr pg pc : ℚ) (steps : ℕ)
    (h : 2 ≤ steps) :
    (sweep lever a ls mr pg pc steps).map Prod.fst = specLeverPoints steps := by
  rw [sweep_map_fst, sweepXs_eq, specLeverPoints_eq]

/-- C2 witness: at the default scenario with `steps = 15` the sweep's lever
values are the stride-sampled points. -/
theorem c2_sweep_sampling_witness :
    (sweep .manpower_reduction 5000000 (4/5) (1/5) (1/4) 600000 15).map
      Prod.fst = specLeverPoints 15 :=
  c2_sweep_sampling .manpower_reduction 5000000 (4/5) (1/5) (1/4) 600000 15
    (by norm_num)

/-- C7: for every lever, base scenario and `steps ≥ 2`, the sweep's lever
values are strictly ascending, start at 0, end at most 0.40, and the sweep
has one pair per distinct stride-sampled point of [0, 40]. -/
theorem c7_sweep_shape (lever : Lever) (a ls mr pg pc : ℚ) (steps : ℕ)
    (h : 2 ≤ steps) :
    ((sweep lever a ls mr pg pc steps).map Prod.fst).head? = some 0 ∧
    (∃ z, ((sweep lever a ls mr pg pc steps).map Prod.fst).getLast?
        = some z ∧ z ≤ 2/5) ∧
    ((sweep lever a ls mr pg pc steps).map Prod.fst).Pairwise (· < ·) ∧
    (sweep lever a ls mr pg pc steps).length
      = (specLeverPoints steps).length ∧
    (specLeverPoints steps).Nodup := by
  rw [sweep_map_fst, sweepXs_eq]
  refine ⟨?_, ?_, ?_, ?_, ?_⟩
  · rw [List.head?_map, List.range_succ_eq_map]
    simp
  · refine ⟨((40 / stride steps * stride steps : ℕ) : ℚ) / 100, ?_, ?_⟩
    · rw [List.range_succ, List.map_append, List.map_cons, List.map_nil,
        List.getLast?_concat]
    · have hle : 40 / stride steps * stride steps ≤ 40 :=
        Nat.div_mul_le_self 40 (stride steps)
      have hq : ((40 / stride steps * stride steps : ℕ) : ℚ) ≤ 40 := by
        exact_mod_cast hle
      calc ((40 / stride steps * stride steps : ℕ) : ℚ) / 100
          ≤ 40 / 100 := by gcongr
        _ = 2/5 := by norm_num
  · exact lever_values_pairwise steps
  · cases lever <;>
      simp [sweep, sweepXs_eq, specLeverPoints_eq, List.length_map]
  · rw [specLeverPoints_eq]
    exact (lever_values_pairwise steps).imp ne_of_lt

/-- C7 witness: the shape property at the default scenario with `steps = 5`. -/
theorem c7_sweep_shape_witness :
    ((sweep .manpower_reduction 5000000 (4/5) (1/5) (1/4) 600000 5).map
        Prod.fst).head? = some 0 ∧
    (∃ z, ((sweep .manpower_reduction 5000000 (4/5) (1/5) (1/4) 600000 5).map
        Prod.fst).getLast? = some z ∧ z ≤ 2/5) ∧
    ((sweep .manpower_reduction 5000000 (4/5) (1/5) (1/4) 600000 5).map
        Prod.fst).Pairwise (· < ·) ∧
    (sweep .manpower_reduction 5000000 (4/5) (1/5) (1/4) 600000 5).length
      = (specLeverPoints 5).length ∧
    (specLeverPoints 5).Nodup :=
  c7_sweep_shape .manpower_reduction 5000000 (4/5) (1/5) (1/4) 600000 5
    (by norm_num)

/-- C9: when the requested path is absent from the file system, the loader
returns a placeholder string containing the requested path (and, being a
total function, raises nothing). -/
theorem c9_missing_file_placeholder (fs : String → Option String)
    (p : String) (h : fs p = none) :
    ∃ pre post, load_markdown fs p = pre ++ p ++ post :=
  ⟨"> ⚠️ Could not find `",
   "`. Make sure your repo contains this file.",
   by simp [load_markdown, h]⟩

/-- C9 witness: on an empty file system, loading
`theory-to-case/frameworks.md` yields a string containing that path. -/
theorem c9_missing_file_placeholder_witness :
    ∃ pre post,
      load_markdown (fun _ => none) "theory-to-case/frameworks.md"
        = pre ++ "theory-to-case/frameworks.md" ++ post :=
  c9_missing_file_placeholder (fun _ => none) "theory-to-case/frameworks.md"
    rfl

/-- C10: for every scenario,
`savings = annual_ops_cost * labor_share * manpower_reduction - platform_cost`
(labor savings minus platform cost), hence savings is negative whenever the
platform cost exceeds the labor savings. -/
theorem c10_savings_formula (a ls mr pg pc : ℚ) :
    (compute_roi a ls mr pg pc).savings = a * ls * mr - pc ∧
    (a * ls * mr < pc → (compute_roi a ls mr pg pc).savings < 0) := by
  have h : (compute_roi a ls mr pg pc).savings = a * ls * mr - pc := by
    simp [compute_roi, labor_cost, non_labor, labor_savings]
    ring
  exact ⟨h, fun hlt => by rw [h]; linarith⟩

/-- C10 witness: at `annual_ops_cost = 1`, `labor_share = 1`,
`manpower_reduction = 0`, `platform_cost = 1` the labor savings `0` are below
the platform cost, and the savings are negative. -/
theorem c10_savings_formula_witness :
    (compute_roi 1 1 0 0 1).savings < 0 :=
  (c10_savings_formula 1 1 0 0 1).2 (by norm_num)

end CertisROI
